import Mathlib

/-!
Verification development for the tidalidarr repository.

The definitions below are a shallow embedding of the Python source:
  * `src/tidalidarr/tidal/models.py`      (AuthState, TidalToken, TidalAlbum, TidalTrack,
                                           TidalSearchResult, TidalConfig)
  * `src/tidalidarr/tidal/base_client.py` (TidalBaseClient: _change_state, _load_token,
                                           _save_token, _verify_access_token,
                                           _login_with_device_code, _login_with_refresh_token)
  * `src/tidalidarr/tidal/client.py`      (TidalClient: search, enqueue_album,
                                           process_queue, _download_album, _download_track)
  * `src/tidalidarr/utils.py`             (sanitize)

Network and clock effects are passed in explicitly: every HTTP call's outcome is a
parameter of the embedded function and timestamps are naturals (seconds).  Python
exceptions are modelled with `Except`; stateful methods return their final state next
to the `Except` result so that side effects that happen before a raise stay
observable.

One fact of the source shapes the search and download embeddings: every data call in
`client.py` (lines 75, 97, 138, 163, 172) invokes `self._request(...,
is_authenticated=True)`, while `_request` (`base_client.py` 41-52) accepts only the
keyword-only parameter `with_auth_headers`.  Each such call therefore raises
`TypeError` at the call site, before any request is issued, and `TypeError` is
neither an `aiohttp.ClientError` nor covered by the `suppress(ClientError)` in
`_get_track_lyrics`.  The plain calls — the cover fetch (line 149), the raw
stream-byte GET (line 197) and the session probe (`base_client.py` 155) — are
unaffected.
-/

deriving instance DecidableEq for Except

namespace Tidalidarr

/-! ## Auth state enum — `models.py` lines 41-48 -/

/-- The `AuthState` enum of `src/tidalidarr/tidal/models.py` (lines 41-48). -/
inductive AuthState
  | ACCESS_TOKEN_EXPIRED
  | ACCESS_TOKEN_REFRESHED
  | LOGGED_IN
  | REFRESH_TOKEN_EXPIRED
  | SUBSCRIPTION_EXPIRED
  | TOKEN_PRESENT
  | UNAUTHENTICATED
  deriving DecidableEq, Repr, Fintype

/-! ## Python exception model

Python exceptions are modelled structurally.  `aiohttp.ClientError` has the subclass
`ClientResponseError` (raised for HTTP error statuses because the session is created
with `raise_for_status=True` in `__main__.py`); other `ClientError`s (connection,
timeout) are collapsed into `transport`. -/

/-- An `aiohttp.ClientError`: either a transport-level failure or a
`ClientResponseError` carrying the HTTP status and the error body. -/
inductive ClientErrorKind
  | transport
  | httpStatus (status : Nat) (body : String)
  deriving DecidableEq, Repr

/-- Python exceptions that escape the embedded functions. -/
inductive PyError
  /-- `ValueError` raised by `_change_state` for a disallowed transition. -/
  | invalidTransition (source target : AuthState)
  /-- `ValueError("We need a token to login with refresh token")`. -/
  | valueError (msg : String)
  /-- pydantic `ValidationError` from constructing a model out of a bad dict. -/
  | validationError
  /-- `StopIteration` from exhausting a generator passed to `next`. -/
  | stopIteration
  /-- `UnboundLocalError` / `NameError`: a local variable referenced before assignment. -/
  | unboundLocal (var : String)
  /-- `TypeError` from calling a function with an unexpected keyword argument; the
  string names the offending keyword. -/
  | typeError (keyword : String)
  /-- An `aiohttp.ClientError` propagating out. -/
  | clientError (e : ClientErrorKind)
  deriving DecidableEq, Repr

/-! ## State transition function — `base_client.py` lines 109-137 (`_change_state`)

The Python method mutates `self._auth_state` or raises `ValueError`; here it returns
the new stored state or the offending pair.  The early `if self._auth_state ==
new_state: return` (line 110-111) keeps the state as is without an error. -/

/-- Shallow embedding of `TidalBaseClient._change_state` (`base_client.py` 109-137).
`Except.ok s` means the stored state becomes `s`; `Except.error (a, b)` models the
`ValueError` raised for the disallowed pair, with the stored state unchanged. -/
def changeState (cur new : AuthState) : Except (AuthState × AuthState) AuthState :=
  if cur = new then .ok cur
  else
    match cur, new with
    | .UNAUTHENTICATED, .TOKEN_PRESENT => .ok .TOKEN_PRESENT
    | .UNAUTHENTICATED, .LOGGED_IN => .ok .LOGGED_IN
    | .TOKEN_PRESENT, .ACCESS_TOKEN_EXPIRED => .ok .ACCESS_TOKEN_EXPIRED
    | .TOKEN_PRESENT, .LOGGED_IN => .ok .LOGGED_IN
    | .LOGGED_IN, .UNAUTHENTICATED => .ok .UNAUTHENTICATED
    | .LOGGED_IN, .ACCESS_TOKEN_EXPIRED => .ok .ACCESS_TOKEN_EXPIRED
    | .ACCESS_TOKEN_EXPIRED, .LOGGED_IN => .ok .LOGGED_IN
    | .ACCESS_TOKEN_EXPIRED, .REFRESH_TOKEN_EXPIRED => .ok .REFRESH_TOKEN_EXPIRED
    | .ACCESS_TOKEN_EXPIRED, .UNAUTHENTICATED => .ok .UNAUTHENTICATED
    | .ACCESS_TOKEN_REFRESHED, .UNAUTHENTICATED => .ok .SUBSCRIPTION_EXPIRED
    | .REFRESH_TOKEN_EXPIRED, .LOGGED_IN => .ok .LOGGED_IN
    | a, b => .error (a, b)

/-- The ten ordinary (source, target) pairs listed by the spec's transition table;
the eleventh case of the Python `match`, `(ACCESS_TOKEN_REFRESHED, UNAUTHENTICATED)`,
is kept apart because it stores `SUBSCRIPTION_EXPIRED` instead of the target. -/
def allowedTransitions : List (AuthState × AuthState) :=
  [(.UNAUTHENTICATED, .TOKEN_PRESENT),
   (.UNAUTHENTICATED, .LOGGED_IN),
   (.TOKEN_PRESENT, .ACCESS_TOKEN_EXPIRED),
   (.TOKEN_PRESENT, .LOGGED_IN),
   (.LOGGED_IN, .UNAUTHENTICATED),
   (.LOGGED_IN, .ACCESS_TOKEN_EXPIRED),
   (.ACCESS_TOKEN_EXPIRED, .LOGGED_IN),
   (.ACCESS_TOKEN_EXPIRED, .REFRESH_TOKEN_EXPIRED),
   (.ACCESS_TOKEN_EXPIRED, .UNAUTHENTICATED),
   (.REFRESH_TOKEN_EXPIRED, .LOGGED_IN)]

/-! ## Credential model — `models.py` lines 107-122 (`TidalUser`, `TidalToken`) -/

/-- The `TidalUser` pydantic model (`models.py` 107-111). -/
structure TidalUser where
  country_code : String
  email : String
  user_id : Int
  username : String
  deriving DecidableEq, Repr

/-- The `TidalToken` pydantic model (`models.py` 114-122). -/
structure TidalToken where
  access_token : String
  client_name : String
  expires_in : Int
  refresh_token : String
  scope : String
  token_type : String
  user_id : Int
  user : TidalUser
  deriving DecidableEq, Repr

/-! ## JSON values

`_save_token` writes `json.dump(token.dict(), p)` and `_load_token` reads
`TidalToken(**json.load(p))`; the refresh flow merges two dicts with `|`.  JSON values
are modelled by `JVal`; an object is an association list in insertion order. -/

/-- A JSON value: strings, integers and objects cover everything the token file and
the token-endpoint responses hold. -/
inductive JVal
  | jstr (s : String)
  | jint (n : Int)
  | jobj (fields : List (String × JVal))

/-- Lookup of a key in a JSON object (first occurrence), as Python `dict` access. -/
def jlookup (o : List (String × JVal)) (k : String) : Option JVal :=
  (o.find? (fun p => p.1 = k)).map (fun p => p.2)

/-- Python `old | new` on dicts: keys of `old` keep their position, values overridden
by `new` where present; keys only in `new` are appended in their order. -/
def mergeObj (old new : List (String × JVal)) : List (String × JVal) :=
  old.map (fun p => (p.1, (jlookup new p.1).getD p.2))
    ++ new.filter (fun p => (jlookup old p.1).isNone)

/-- Serialization of a `TidalUser` as produced by pydantic `.dict()` (field names,
i.e. snake_case keys). -/
def TidalUser.toJson (u : TidalUser) : JVal :=
  .jobj [("country_code", .jstr u.country_code),
         ("email", .jstr u.email),
         ("user_id", .jint u.user_id),
         ("username", .jstr u.username)]

/-- Serialization of a `TidalToken` as produced by `token.dict()` inside
`_save_token` (`base_client.py` 148-151): snake_case keys, nested user dict. -/
def TidalToken.toJson (t : TidalToken) : JVal :=
  .jobj [("access_token", .jstr t.access_token),
         ("client_name", .jstr t.client_name),
         ("expires_in", .jint t.expires_in),
         ("refresh_token", .jstr t.refresh_token),
         ("scope", .jstr t.scope),
         ("token_type", .jstr t.token_type),
         ("user_id", .jint t.user_id),
         ("user", t.user.toJson)]

/-- Reads a string-typed field out of a JSON value. -/
def JVal.asStr : JVal → Option String
  | .jstr s => some s
  | _ => none

/-- Reads an integer-typed field out of a JSON value. -/
def JVal.asInt : JVal → Option Int
  | .jint n => some n
  | _ => none

/-- Construction `TidalUser(**d)`: every required field must be present with the
right type (pydantic validation); extra keys are ignored. -/
def userFromJson (v : JVal) : Option TidalUser :=
  match v with
  | .jobj o => do
    let country_code ← (jlookup o "country_code").bind JVal.asStr
    let email ← (jlookup o "email").bind JVal.asStr
    let user_id ← (jlookup o "user_id").bind JVal.asInt
    let username ← (jlookup o "username").bind JVal.asStr
    pure ⟨country_code, email, user_id, username⟩
  | _ => none

/-- Construction `TidalToken(**d)` as performed by `_load_token` and the login/refresh
flows; `none` models a pydantic `ValidationError`. -/
def tokenFromJson (v : JVal) : Option TidalToken :=
  match v with
  | .jobj o => do
    let access_token ← (jlookup o "access_token").bind JVal.asStr
    let client_name ← (jlookup o "client_name").bind JVal.asStr
    let expires_in ← (jlookup o "expires_in").bind JVal.asInt
    let refresh_token ← (jlookup o "refresh_token").bind JVal.asStr
    let scope ← (jlookup o "scope").bind JVal.asStr
    let token_type ← (jlookup o "token_type").bind JVal.asStr
    let user_id ← (jlookup o "user_id").bind JVal.asInt
    let user ← (jlookup o "user").bind userFromJson
    pure ⟨access_token, client_name, expires_in, refresh_token, scope, token_type,
          user_id, user⟩
  | _ => none

/-! ## Device-code polling — `base_client.py` lines 197-220 (`_login_with_device_code`)

The method posts to the token endpoint and is wrapped in
`@retry(wait=wait_fixed(10), retry=retry_if_exception_type(ClientError),
stop=stop_after_delay(300), reraise=True)`.  Because the `ClientSession` is created
with `raise_for_status=True`, an `authorization_pending` rejection surfaces as a
`ClientResponseError`, which is a `ClientError` and hence retried exactly like a
transport error.  The poll loop is embedded over the list of successive outcomes of
the POST; `elapsed` is the seconds since the first attempt (time advances only during
the fixed sleeps), and the returned list records each intervening wait in seconds. -/

/-- The `wait_fixed(10)` interval of the tenacity decorator on
`_login_with_device_code` (`base_client.py` line 198). -/
def pollWaitSeconds : Nat := 10

/-- The `stop_after_delay(300)` budget of the tenacity decorator on
`_login_with_device_code` (`base_client.py` line 200). -/
def pollStopAfterSeconds : Nat := 300

/-- Shallow embedding of the retry loop around `_login_with_device_code`:
`responses` are the successive outcomes of the token-endpoint POST, `elapsed` the
seconds since the first attempt.  Returns the final outcome (`none` only when the
supplied response trace is exhausted) together with the list of waits performed. -/
def loginWithDeviceCode :
    List (Except ClientErrorKind TidalToken) → Nat →
      Option (Except ClientErrorKind TidalToken) × List Nat
  | [], _ => (none, [])
  | r :: rest, elapsed =>
    match r with
    | .ok tok => (some (.ok tok), [])
    | .error e =>
      if pollStopAfterSeconds ≤ elapsed then (some (.error e), [])
      else
        let tail := loginWithDeviceCode rest (elapsed + pollWaitSeconds)
        (tail.1, pollWaitSeconds :: tail.2)

/-- The `authorization_pending` rejection of the device-code grant: HTTP 400 with an
`authorization_pending` error body, surfaced as `ClientResponseError`. -/
def authorizationPending : ClientErrorKind := .httpStatus 400 "authorization_pending"

/-- A concrete credential used by closed witnesses. -/
def sampleToken : TidalToken :=
  { access_token := "at0", client_name := "cn", expires_in := 604800,
    refresh_token := "rt0", scope := "r_usr w_usr w_sub", token_type := "Bearer",
    user_id := 7, user := { country_code := "US", email := "u@example.com",
                            user_id := 7, username := "u" } }

/-! ## Token persistence and the refresh flow — `base_client.py` 139-163, 222-244

`TidalBaseClient` keeps `self._token`, `self._auth_state` and the token file; the
three are bundled into `ClientState`.  Raising methods return their final state next
to the `Except` result because the Python code mutates `self` and the file before a
potential raise. -/

/-- Contents of the token file at `config.token_path`: absent
(`FileNotFoundError` on open), present but not valid JSON (`json.JSONDecodeError`), or
a parsed JSON value. -/
inductive FileContent
  | missing
  | invalidJson (raw : String)
  | json (v : JVal)

/-- The mutable fields of `TidalBaseClient` touched by the token logic, together with
the token file. -/
structure ClientState where
  token : Option TidalToken
  authState : AuthState
  tokenFile : FileContent

/-- Shallow embedding of `TidalBaseClient._save_token` (`base_client.py` 148-151):
`json.dump(token.dict(), p)` overwrites the token file. -/
def saveToken (s : ClientState) (t : TidalToken) : ClientState :=
  { s with tokenFile := .json t.toJson }

/-- Shallow embedding of `TidalBaseClient._load_token` (`base_client.py` 139-146).
`FileNotFoundError` and `json.JSONDecodeError` are suppressed (no state change); a
valid token assigns `self._token` and then transitions to `TOKEN_PRESENT`; a JSON
value that fails pydantic validation raises (the `suppress` does not cover
`ValidationError`), with `self._token` unchanged. -/
def loadToken (s : ClientState) : ClientState × Except PyError Unit :=
  match s.tokenFile with
  | .missing => (s, .ok ())
  | .invalidJson _ => (s, .ok ())
  | .json v =>
    match tokenFromJson v with
    | none => (s, .error .validationError)
    | some t =>
      let s1 := { s with token := some t }
      match changeState s1.authState .TOKEN_PRESENT with
      | .ok st => ({ s1 with authState := st }, .ok ())
      | .error (a, b) => (s1, .error (.invalidTransition a b))

/-- Shallow embedding of `TidalBaseClient._verify_access_token`
(`base_client.py` 153-163): a GET on the session probe.  A `ClientResponseError`
(HTTP error status) is caught and the state moves towards `ACCESS_TOKEN_EXPIRED`; any
other `ClientError` propagates; success moves towards `LOGGED_IN`.  Either
`_change_state` call raises for a disallowed source state. -/
def verifyAccessToken (s : ClientState) (probe : Except ClientErrorKind Unit) :
    ClientState × Except PyError Unit :=
  match probe with
  | .error (.httpStatus _ _) =>
    match changeState s.authState .ACCESS_TOKEN_EXPIRED with
    | .ok st => ({ s with authState := st }, .ok ())
    | .error (a, b) => (s, .error (.invalidTransition a b))
  | .error .transport => (s, .error (.clientError .transport))
  | .ok _ =>
    match changeState s.authState .LOGGED_IN with
    | .ok st => ({ s with authState := st }, .ok ())
    | .error (a, b) => (s, .error (.invalidTransition a b))

/-- Shallow embedding of `TidalBaseClient._login_with_refresh_token`
(`base_client.py` 222-244).  `exchange` is the outcome of the token-endpoint POST
(the parsed response body on success); `probe` is the outcome of the session probe
issued by `_verify_access_token`.  The returned `Bool` records whether the probe
request was actually issued.  On a successful exchange the response dict is merged
over `self._token.dict()`, the merged token is assigned and persisted, and then
`_change_state(ACCESS_TOKEN_REFRESHED)` runs; a `ValueError` raised there is not a
`ClientError`, so the surrounding `except ClientError` does not catch it. -/
def loginWithRefreshToken (s : ClientState) (exchange : Except ClientErrorKind JVal)
    (probe : Except ClientErrorKind Unit) :
    ClientState × Bool × Except PyError Unit :=
  match s.token with
  | none => (s, false, .error (.valueError "We need a token to login with refresh token"))
  | some tok =>
    match exchange with
    | .error _ =>
      -- except ClientError: the refresh token is treated as invalid
      match changeState s.authState .REFRESH_TOKEN_EXPIRED with
      | .ok st => ({ s with authState := st }, false, .ok ())
      | .error (a, b) => (s, false, .error (.invalidTransition a b))
    | .ok content =>
      let contentFields := match content with | .jobj o => o | _ => []
      let mergedJson : JVal :=
        match tok.toJson with
        | .jobj o => .jobj (mergeObj o contentFields)
        | v => v
      match tokenFromJson mergedJson with
      | none => (s, false, .error .validationError)
      | some newTok =>
        -- self._token = ...; self._save_token(self._token)
        let s1 := saveToken { s with token := some newTok } newTok
        match changeState s1.authState .ACCESS_TOKEN_REFRESHED with
        | .error (a, b) => (s1, false, .error (.invalidTransition a b))
        | .ok st =>
          let s2 := { s1 with authState := st }
          let (s3, r) := verifyAccessToken s2 probe
          (s3, true, r)

/-- A concrete refresh response carrying a fresh access and refresh token. -/
def refreshResponse : JVal :=
  .jobj [("access_token", .jstr "at1"), ("refresh_token", .jstr "rt1"),
         ("expires_in", .jint 604800)]

/-! ## Albums, sanitization and search — `utils.py` 15-19, `models.py` 125-165 and
269-289, `client.py` 49-70 -/

/-- The `TidalArtistStub` model (`models.py` 125-128), reduced to the fields the
embedded operations read. -/
structure TidalArtistStub where
  id : Nat
  name : String
  deriving DecidableEq, Repr

/-- The `TidalAlbum` model (`models.py` 141-165), reduced to the fields the embedded
operations read. -/
structure TidalAlbum where
  id : Nat
  title : String
  artists : List TidalArtistStub
  deriving DecidableEq, Repr

/-- Shallow embedding of `sanitize` (`utils.py` 15-19): strips the characters matched
by the pattern `[\/\\:\*\?"<>\|]`. -/
def sanitize (text : String) : String :=
  String.mk (text.data.filter (fun c =>
    c ∉ ['/', '\\', ':', '*', '?', '"', '<', '>', '|']))

/-- The `folder` cached property of `TidalAlbum` (`models.py` 156-158):
`Path(sanitize(artists[0].name)) / sanitize(title)`.  (Python raises `StopIteration`
on an empty artist list; all uses below have a nonempty list.) -/
def TidalAlbum.folder (a : TidalAlbum) : String :=
  sanitize ((a.artists.head?.map TidalArtistStub.name).getD "") ++ "/" ++ sanitize a.title

/-- The `top_hit` dict of a search response, reduced to the keys
`TidalSearchResult.top_hit_id` reads: `top_hit["type"]` and
`top_hit.get("value", {}).get("id", None)`. -/
structure TopHit where
  type : String
  valueId : Option Nat
  deriving DecidableEq, Repr

/-- The `TidalSearchResult` model (`models.py` 269-289), reduced to the fields
`TidalClient.search` reads. -/
structure TidalSearchResult where
  albums : List TidalAlbum
  topHit : Option TopHit
  deriving DecidableEq, Repr

/-- The `top_hit_id` property (`models.py` 283-289): `None` without a top hit, `None`
when the top hit is not of type `"ALBUMS"`, otherwise the (possibly absent) id of its
value. -/
def TidalSearchResult.topHitId (r : TidalSearchResult) : Option Nat :=
  match r.topHit with
  | none => none
  | some th => if th.type ≠ "ALBUMS" then none else th.valueId

/-- The negative cache `self._not_found : dict[str, float]` of `TidalClient`: query
string to the timestamp (seconds) of the recorded miss, in insertion order. -/
abbrev NotFoundCache := List (String × Nat)

/-- Python `self._not_found[query]` read / `query in self._not_found`. -/
def cacheLookup (nf : NotFoundCache) (q : String) : Option Nat :=
  (nf.find? (fun p => p.1 = q)).map (fun p => p.2)

/-- The guard at `client.py` line 56:
`query in self._not_found and (time.time() - self._not_found[query]) < check_interval`. -/
def cacheFresh (checkInterval : Nat) (nf : NotFoundCache) (q : String) (now : Nat) :
    Bool :=
  match cacheLookup nf q with
  | some ts => decide (now - ts < checkInterval)
  | none => false

/-- Observable outcome of one `TidalClient.search` call. -/
inductive SearchOutcome
  | found (folder : String)
  | notFound
  | raised (e : PyError)
  deriving DecidableEq, Repr

/-- Trace of one `TidalClient.search` call: outcome, final negative cache, number of
network search requests issued, and the album handed to `enqueue_album` (if any). -/
structure SearchTrace where
  outcome : SearchOutcome
  cache : NotFoundCache
  networkSearchCalls : Nat
  enqueuedAlbum : Option TidalAlbum
  deriving DecidableEq, Repr

/-- Shallow embedding of `TidalClient.search` (`client.py` 49-70).  `_result` is the
response the server would return to the search request; `now` is the current
`time.time()`.  A query with a fresh negative-cache entry returns not-found before any
request (line 56-57).  Every other query reaches `await self._search(query)` (line
59), whose request `self._request("GET", url, params=params, is_authenticated=True)`
(line 97) raises `TypeError` — `_request` has no parameter `is_authenticated`
(`base_client.py` 41-52) — before any request is issued, so the response is never
consumed: the miss-recording (line 62), the entry deletion (lines 65-66) and the
album lookup `next(a for a in search_result.albums if a.id == album_id)` (line 68)
are all unreachable. -/
def search (checkInterval : Nat) (nf : NotFoundCache) (now : Nat) (query : String)
    (_result : TidalSearchResult) : SearchTrace :=
  if cacheFresh checkInterval nf query now then
    ⟨.notFound, nf, 0, none⟩
  else
    ⟨.raised (.typeError "is_authenticated"), nf, 0, none⟩

/-- A concrete album for closed witnesses. -/
def sampleAlbum : TidalAlbum :=
  { id := 42, title := "Album Y", artists := [{ id := 1, name := "Artist X" }] }

/-- A concrete search response whose top hit is `sampleAlbum`. -/
def sampleHitResult : TidalSearchResult :=
  { albums := [sampleAlbum], topHit := some { type := "ALBUMS", valueId := some 42 } }

/-- A concrete search response whose album-type top hit (id 43) matches no entry of
its albums list. -/
def danglingHitResult : TidalSearchResult :=
  { albums := [sampleAlbum], topHit := some { type := "ALBUMS", valueId := some 43 } }

/-! ## Enqueue tracker — `client.py` 79-87 (`enqueue_album`) -/

/-- The queue-side state of `TidalClient`: the pipeline input queue
`self._download_queue` (FIFO, head = next to be consumed) and the id set
`self._enqueued`. -/
structure QueueState where
  downloadQueue : List TidalAlbum
  enqueued : List Nat
  deriving DecidableEq, Repr

/-- The status string built at `client.py` line 83. -/
def addedMessage (a : TidalAlbum) : String :=
  "Album " ++ toString a.id ++ " - " ++ a.title ++ " added to download queue"

/-- The status string built at `client.py` line 85. -/
def alreadyMessage (a : TidalAlbum) : String :=
  "Album " ++ toString a.id ++ " - " ++ a.title ++ " is already in queue"

/-- Shallow embedding of `TidalClient.enqueue_album` (`client.py` 79-87): push the
album and record its id when the id is not yet tracked, otherwise change nothing;
either way return the status string. -/
def enqueueAlbum (s : QueueState) (album : TidalAlbum) : String × QueueState :=
  if album.id ∈ s.enqueued then
    (alreadyMessage album, s)
  else
    (addedMessage album,
     { downloadQueue := s.downloadQueue ++ [album], enqueued := album.id :: s.enqueued })

/-! ## Download pipeline — `client.py` 36-41 (`process_queue`), 121-134
(`_download_album`), 177-211 (`_download_track`)

`_download_album` fetches the cover with plain `_request` calls (lines 129,
144-154: every failure tolerated, no file touched), then calls `_get_track_list`
(line 130), whose request carries `is_authenticated=True` (line 138) and therefore
raises `TypeError` before the per-track loop of lines 131-133 ever runs.
`_download_track` itself (analysed in isolation, since the loop never calls it)
skips an already-present file before issuing any request (lines 187-193); on a new
file it GETs the stream bytes with a plain call (line 197) and then calls
`_get_track_lyrics` (line 199), whose request also carries `is_authenticated=True`
(line 172) and raises `TypeError` — not covered by the `suppress(ClientError)`
around it — before the temporary-file write of lines 201-206.  The write,
`save_metadata`, `shutil.move` and the inter-download sleep of lines 208-211 are
unreachable. -/

/-- The files present in one album's destination folder: final file name to the bytes
stored there. -/
abbrev AlbumFs := List (String × List Nat)

/-- Python `file_path.exists()` on the per-album view. -/
def fsLookup (fs : AlbumFs) (name : String) : Option (List Nat) :=
  (fs.find? (fun p => p.1 = name)).map (fun p => p.2)

/-- Observable effects of one `_download_track` call: resulting folder contents, the
number of GETs of the stream URL (`client.py` line 197), the number of writes of
track bytes (line 202), and the milliseconds slept between downloads (lines
208-211), if any. -/
structure TrackDownloadResult where
  fs : AlbumFs
  byteFetches : Nat
  byteWrites : Nat
  sleptMs : Option Nat
  deriving DecidableEq, Repr

/-- Shallow embedding of `TidalClient._download_track` (`client.py` 177-211).
`_sleepBetweenDownloads` is `config.sleep_between_downloads`; it is read nowhere on
any reachable path, because the only statement reading it (line 208) sits after the
lyrics fetch.  When the final file name already exists the method logs and returns
without a request (lines 190-193).  Otherwise the stream bytes are fetched (line
197, one byte fetch) and the lyrics call raises `TypeError` (line 199 via 172), so
the folder contents are unchanged, no byte is written and no sleep happens. -/
def downloadTrack (_sleepBetweenDownloads : ℚ) (fs : AlbumFs) (trackName : String) :
    TrackDownloadResult × Except PyError Unit :=
  -- folder.mkdir(parents=True, exist_ok=True) has no effect on the per-album view
  if (fsLookup fs trackName).isSome then
    (⟨fs, 0, 0, none⟩, .ok ())
  else
    (⟨fs, 1, 0, none⟩, .error (.typeError "is_authenticated"))

/-- Aggregated effects of `_download_album` (`client.py` 121-134): folder contents,
stream-manifest fetches (`_get_track_stream`, line 132), raw byte fetches and byte
writes. -/
structure AlbumDownloadResult where
  fs : AlbumFs
  manifestFetches : Nat
  byteFetches : Nat
  byteWrites : Nat
  deriving DecidableEq, Repr

/-- Shallow embedding of `TidalClient._download_album` (`client.py` 121-134): after
the tolerated cover fetch, `_get_track_list` raises `TypeError` (line 130 → 138), so
no stream manifest is ever requested, no track is downloaded or skipped, and the
folder contents are untouched, whatever they hold. -/
def downloadAlbum (fs : AlbumFs) : AlbumDownloadResult × Except PyError Unit :=
  (⟨fs, 0, 0, 0⟩, .error (.typeError "is_authenticated"))

/-- Shallow embedding of one iteration of `TidalClient.process_queue` (`client.py`
36-41): pop an album, run `_download_album`, and on success push the album folder
onto `self._ready_queue`; an exception escapes the loop without pushing (the loop
body has no exception handler). -/
def processQueueStep (album : TidalAlbum) (fs : AlbumFs) (ready : List String) :
    (AlbumFs × List String) × Except PyError Unit :=
  let run := downloadAlbum fs
  match run.2 with
  | .ok _ => ((run.1.fs, ready ++ [album.folder]), .ok ())
  | .error err => ((run.1.fs, ready), .error err)

/-! ## Theorems -/

/-- C1 counterexample: the claim asserts that every (source, target) pair outside the
listed transitions and the special `ACCESS_TOKEN_REFRESHED→UNAUTHENTICATED` pair fails
with an invalid-transition error.  The pair `(LOGGED_IN, LOGGED_IN)` is such a pair,
yet `_change_state` returns without an error (the equality early-return at
`base_client.py` line 110), leaving the state at `LOGGED_IN`. -/
theorem changeState_self_pair_not_error :
    (AuthState.LOGGED_IN, AuthState.LOGGED_IN) ∉ allowedTransitions
    ∧ (AuthState.LOGGED_IN, AuthState.LOGGED_IN)
        ≠ (AuthState.ACCESS_TOKEN_REFRESHED, AuthState.UNAUTHENTICATED)
    ∧ changeState .LOGGED_IN .LOGGED_IN = .ok .LOGGED_IN := by
  decide

/-- C1 (amended): `_change_state` accepts exactly the listed source→target pairs
(storing the target), maps `ACCESS_TOKEN_REFRESHED→UNAUTHENTICATED` to the stored
state `SUBSCRIPTION_EXPIRED`, silently accepts every pair with source = target without
changing the state, and fails with an invalid-transition error on every remaining
pair, leaving the state unchanged. -/
theorem changeState_characterization :
    ∀ s t : AuthState,
      changeState s t =
        if s = t then .ok s
        else if (s, t) ∈ allowedTransitions then .ok t
        else if s = .ACCESS_TOKEN_REFRESHED ∧ t = .UNAUTHENTICATED then
          .ok .SUBSCRIPTION_EXPIRED
        else .error (s, t) := by
  decide

/-- Any prefix of failures, of whichever `ClientError` kind, below the time budget is
waited out with the fixed interval and the first success is returned. -/
theorem loginWithDeviceCode_ok_after_errors (errs : List ClientErrorKind)
    (tok : TidalToken) (elapsed : Nat)
    (h : elapsed + pollWaitSeconds * errs.length ≤ pollStopAfterSeconds) :
    loginWithDeviceCode (errs.map .error ++ [.ok tok]) elapsed =
      (some (.ok tok), List.replicate errs.length pollWaitSeconds) := by
  induction errs generalizing elapsed with
  | nil => rfl
  | cons e rest ih =>
    have hlt : ¬ pollStopAfterSeconds ≤ elapsed := by
      simp only [List.length_cons, pollWaitSeconds, pollStopAfterSeconds] at h ⊢
      omega
    have ih' := ih (elapsed + pollWaitSeconds) (by
      simp only [List.length_cons, pollWaitSeconds, pollStopAfterSeconds] at h ⊢
      omega)
    simp only [List.map_cons, List.cons_append, loginWithDeviceCode, List.append_eq,
      if_neg hlt, ih', List.replicate_succ, List.length_cons]

/-- C3 (amended): the device-code poll loop waits a fixed `pollWaitSeconds = 10`
seconds between polls (not 60), retries uniformly on every `ClientError` — the
`authorization_pending` HTTP rejection is not distinguished from a transient
transport error — and gives up once the elapsed budget of 300 seconds is reached,
re-raising the last error.  A run receiving any three `ClientError`s (in particular
three `authorization_pending` rejections) and then a valid token succeeds after
exactly three fixed 10-second waits. -/
theorem loginWithDeviceCode_spec :
    (∀ (errs : List ClientErrorKind) (tok : TidalToken), errs.length ≤ 30 →
      loginWithDeviceCode (errs.map .error ++ [.ok tok]) 0 =
        (some (.ok tok), List.replicate errs.length pollWaitSeconds))
    ∧ (∀ e : ClientErrorKind,
        loginWithDeviceCode (List.replicate 31 (.error e)) 0 =
          (some (.error e), List.replicate 30 pollWaitSeconds)) := by
  constructor
  · intro errs tok h
    apply loginWithDeviceCode_ok_after_errors
    simp only [pollWaitSeconds, pollStopAfterSeconds]
    omega
  · intro e
    rfl

/-- C3 witness: three `authorization_pending` polls followed by a valid token succeed
after exactly three intervening fixed waits. -/
theorem loginWithDeviceCode_spec_witness :
    loginWithDeviceCode
        [.error authorizationPending, .error authorizationPending,
         .error authorizationPending, .ok sampleToken] 0 =
      (some (.ok sampleToken), [pollWaitSeconds, pollWaitSeconds, pollWaitSeconds]) := by
  have h := loginWithDeviceCode_spec.1
      [authorizationPending, authorizationPending, authorizationPending]
      sampleToken (by decide)
  simpa using h

/-- C3 counterexample: the claim fixes the inter-poll wait at 60 seconds; on the run
with a single `authorization_pending` rejection followed by a valid token, the single
intervening wait performed by the code is 10 seconds, not 60. -/
theorem loginWithDeviceCode_wait_is_ten_not_sixty :
    (loginWithDeviceCode [.error authorizationPending, .ok sampleToken] 0).2 = [10]
    ∧ (10 : Nat) ≠ 60 := by
  exact ⟨rfl, by decide⟩

/-- C9: persisting a credential and loading it back yields the same credential in
every field, moving the auth state from `UNAUTHENTICATED` to `TOKEN_PRESENT`;
loading with the file absent or undecodable changes neither the credential nor the
auth state. -/
theorem token_roundtrip (s : ClientState) (t : TidalToken)
    (h : s.authState = .UNAUTHENTICATED) :
    loadToken (saveToken s t) =
      ({ s with token := some t, authState := .TOKEN_PRESENT,
                tokenFile := .json t.toJson }, .ok ())
    ∧ tokenFromJson t.toJson = some t
    ∧ loadToken { s with tokenFile := .missing } = ({ s with tokenFile := .missing }, .ok ())
    ∧ ∀ raw, loadToken { s with tokenFile := .invalidJson raw } =
        ({ s with tokenFile := .invalidJson raw }, .ok ()) := by
  have hrt : tokenFromJson t.toJson = some t := rfl
  refine ⟨?_, hrt, rfl, fun raw => rfl⟩
  simp only [loadToken, saveToken, hrt, h, changeState]
  rfl

/-- C9 witness: the concrete sample credential round-trips from the
`UNAUTHENTICATED` startup state. -/
theorem token_roundtrip_witness :
    loadToken (saveToken ⟨none, .UNAUTHENTICATED, .missing⟩ sampleToken) =
      (⟨some sampleToken, .TOKEN_PRESENT, .json sampleToken.toJson⟩, .ok ()) := by
  exact (token_roundtrip ⟨none, .UNAUTHENTICATED, .missing⟩ sampleToken rfl).1

/-- C2: the refresh flow is invoked from state `ACCESS_TOKEN_EXPIRED` (see
`_ensure_authenticated`, `base_client.py` 96-97).  On a successful exchange it merges
and persists the credential, but then `_change_state(ACCESS_TOKEN_REFRESHED)` raises
`ValueError`, because `(ACCESS_TOKEN_EXPIRED, ACCESS_TOKEN_REFRESHED)` matches no
allowed case; the `except ClientError` does not catch a `ValueError`, so the refresh
fails with an error, the session probe is never issued, and the state never reaches
`REFRESH_TOKEN_EXPIRED` — contradicting the claim that a failing post-refresh probe
moves the state to `REFRESH_TOKEN_EXPIRED` without the refresh failing.  The merged
credential (response fields overwrite, absent fields kept) is persisted before the
raise. -/
theorem refresh_raises_before_probe :
    loginWithRefreshToken
        ⟨some sampleToken, .ACCESS_TOKEN_EXPIRED, .missing⟩
        (.ok refreshResponse) (.error (.httpStatus 401 "")) =
      (⟨some { sampleToken with access_token := "at1", refresh_token := "rt1" },
        .ACCESS_TOKEN_EXPIRED,
        .json ({ sampleToken with
                  access_token := "at1", refresh_token := "rt1" : TidalToken }).toJson⟩,
       false,
       .error (.invalidTransition .ACCESS_TOKEN_EXPIRED .ACCESS_TOKEN_REFRESHED)) := by
  rfl

/-- C5: the negative-cache short-circuit does hold — a query whose entry is younger
than the check interval returns not-found immediately with zero network calls — but
every other search raises `TypeError` at the `_search` request (`client.py` 97: the
keyword `is_authenticated` is unknown to `_request`) before any request is issued, so
the miss is never recorded at the current timestamp and no stale entry is ever
removed: the recording and removal the claim describes are dead code (`client.py`
60-68), and the cache is left unchanged either way. -/
theorem search_short_circuit_then_type_error (checkInterval : Nat)
    (nf : NotFoundCache) (now : Nat) (query : String) (result : TidalSearchResult) :
    (cacheFresh checkInterval nf query now = true →
      search checkInterval nf now query result = ⟨.notFound, nf, 0, none⟩)
    ∧ (cacheFresh checkInterval nf query now = false →
      search checkInterval nf now query result =
        ⟨.raised (.typeError "is_authenticated"), nf, 0, none⟩) := by
  constructor <;> intro h <;> simp [search, h]

/-- C5 witness: a fresh cached miss short-circuits with zero network calls; a query
absent from the cache raises `TypeError` with the cache unchanged and zero network
calls, whatever the server would have answered. -/
theorem search_short_circuit_then_type_error_witness :
    search 3600 [("q", 1000)] 2000 "q" sampleHitResult =
      ⟨.notFound, [("q", 1000)], 0, none⟩
    ∧ search 3600 [] 2000 "q" sampleHitResult =
      ⟨.raised (.typeError "is_authenticated"), [], 0, none⟩ := by
  exact ⟨(search_short_circuit_then_type_error 3600 [("q", 1000)] 2000 "q"
      sampleHitResult).1 (by decide),
    (search_short_circuit_then_type_error 3600 [] 2000 "q" sampleHitResult).2
      (by decide)⟩

/-- C10 counterexample: at the very input the claim describes — an uncached query
whose response would carry an album-type top hit (id 43) absent from the albums
list — `search` raises `TypeError` from the `is_authenticated` keyword before any
response exists; the exception is not a `StopIteration` and the response is never
consumed. -/
theorem search_dangling_hit_type_error_not_stop_iteration :
    search 3600 [] 2000 "q" danglingHitResult =
      ⟨.raised (.typeError "is_authenticated"), [], 0, none⟩
    ∧ SearchOutcome.raised (.typeError "is_authenticated") ≠
        SearchOutcome.raised .stopIteration := by
  exact ⟨rfl, by decide⟩

/-- C10 (amended): for every query that passes the negative-cache check — whatever
response the server would have returned, including one whose album-type top hit
references no entry of the albums list — `search` raises `TypeError` at the
`_search` request call, so it neither returns not-found nor records the query, and
the in-list album lookup of `client.py` line 68, with its latent `StopIteration` on
a dangling top hit, is never reached. -/
theorem search_type_error_preempts_album_lookup (checkInterval : Nat)
    (nf : NotFoundCache) (now : Nat) (query : String) (result : TidalSearchResult)
    (h : cacheFresh checkInterval nf query now = false) :
    search checkInterval nf now query result =
      ⟨.raised (.typeError "is_authenticated"), nf, 0, none⟩ := by
  simp [search, h]

/-- C10 witness: a stale-cached query with a dangling-top-hit response raises
`TypeError`, leaving the stale entry in place and issuing no request. -/
theorem search_type_error_preempts_album_lookup_witness :
    search 3600 [("q", 1000)] 9000 "q" danglingHitResult =
      ⟨.raised (.typeError "is_authenticated"), [("q", 1000)], 0, none⟩ := by
  exact search_type_error_preempts_album_lookup 3600 [("q", 1000)] 9000 "q"
    danglingHitResult (by decide)

/-- The two status strings differ for every album: they share their prefix and end in
different suffixes of different lengths. -/
theorem addedMessage_ne_alreadyMessage (a : TidalAlbum) :
    addedMessage a ≠ alreadyMessage a := by
  intro h
  have hd := congrArg String.data h
  simp only [addedMessage, alreadyMessage, String.data_append] at hd
  have htail := List.append_cancel_left hd
  exact absurd htail (by decide)

/-- C6: enqueueing a release id not in the tracked set pushes the release exactly once
and returns the "added" status; any further enqueue while the id is tracked pushes
nothing, changes nothing and returns the distinct "already queued" status, so after
two calls the queue has gained exactly one copy of the release. -/
theorem enqueueAlbum_spec (s : QueueState) (a : TidalAlbum)
    (h : a.id ∉ s.enqueued) :
    enqueueAlbum s a =
      (addedMessage a, ⟨s.downloadQueue ++ [a], a.id :: s.enqueued⟩)
    ∧ (∀ s' : QueueState, a.id ∈ s'.enqueued → enqueueAlbum s' a = (alreadyMessage a, s'))
    ∧ (enqueueAlbum (enqueueAlbum s a).2 a).2.downloadQueue = s.downloadQueue ++ [a]
    ∧ addedMessage a ≠ alreadyMessage a := by
  have h1 : enqueueAlbum s a =
      (addedMessage a, ⟨s.downloadQueue ++ [a], a.id :: s.enqueued⟩) := by
    simp [enqueueAlbum, h]
  refine ⟨h1, fun s' hs' => by simp [enqueueAlbum, hs'], ?_,
    addedMessage_ne_alreadyMessage a⟩
  rw [h1]
  simp [enqueueAlbum]

/-- C6 witness: double-enqueue of the sample album from the empty state. -/
theorem enqueueAlbum_spec_witness :
    enqueueAlbum ⟨[], []⟩ sampleAlbum =
      (addedMessage sampleAlbum, ⟨[sampleAlbum], [42]⟩)
    ∧ enqueueAlbum ⟨[sampleAlbum], [42]⟩ sampleAlbum =
      (alreadyMessage sampleAlbum, ⟨[sampleAlbum], [42]⟩) := by
  have h := enqueueAlbum_spec ⟨[], []⟩ sampleAlbum (by decide)
  exact ⟨h.1, h.2.1 ⟨[sampleAlbum], [42]⟩ (by decide)⟩

/-- C7: `_download_album` raises `TypeError` at `_get_track_list` (`client.py` 130 →
138) before the per-track loop, whatever the folder holds — in particular when every
track file already exists: no stream manifest is requested, nothing is fetched or
written, the skip path never runs, and `process_queue` (`client.py` 39-40)
propagates the exception without pushing the folder onto the ready queue, so the
release is never reported complete. -/
theorem downloadAlbum_type_error_no_completion (album : TidalAlbum) (fs : AlbumFs)
    (ready : List String) :
    downloadAlbum fs = (⟨fs, 0, 0, 0⟩, .error (.typeError "is_authenticated"))
    ∧ processQueueStep album fs ready =
        ((fs, ready), .error (.typeError "is_authenticated")) := by
  exact ⟨rfl, rfl⟩

/-- C8: whatever `sleep_between_downloads` holds — `0` as well as the default `5` —
downloading a new track stops with `TypeError` at the lyrics fetch (`client.py` 199
via 172), after the stream-byte GET but before the temporary-file write, so the
sleep logic of lines 208-211 never runs and the download never completes normally.
(Were that call repaired, the claim still could not hold as stated: `await
asyncio.sleep(random_time)` at line 211 sits dedented outside the `if
self._config.sleep_between_downloads:` guard, so an unconfigured sleep would raise
`UnboundLocalError` there, and the randomized window is the hardcoded
`randrange(1000, 5000)` milliseconds, not a configured window.) -/
theorem downloadTrack_type_error_before_sleep :
    downloadTrack 0 [] "01 - Song.flac" =
      (⟨[], 1, 0, none⟩, .error (.typeError "is_authenticated"))
    ∧ downloadTrack 5 [] "01 - Song.flac" =
      (⟨[], 1, 0, none⟩, .error (.typeError "is_authenticated")) := by
  exact ⟨rfl, rfl⟩

/-- C4: no execution of `_download_track` ever writes to the final destination path:
the skip path leaves the folder untouched, and every new-track path raises
`TypeError` at the lyrics fetch before the temporary-file write, so neither the
temporary file nor the destination receives a single byte and the `shutil.move` of
line 205 — the claimed atomic hand-off — is unreachable.  (It would not be an
unconditional atomic rename even in isolation: `shutil.move` from the system temp
directory of `tempfile.NamedTemporaryFile()` renames only when both paths share a
filesystem and otherwise copies directly, non-atomically, onto the destination.) -/
theorem downloadTrack_destination_never_written (sleepBetweenDownloads : ℚ)
    (fs : AlbumFs) (trackName : String) (h : fsLookup fs trackName = none) :
    downloadTrack sleepBetweenDownloads fs trackName =
      (⟨fs, 1, 0, none⟩, .error (.typeError "is_authenticated"))
    ∧ fsLookup (downloadTrack sleepBetweenDownloads fs trackName).1.fs trackName =
        none := by
  have h1 : downloadTrack sleepBetweenDownloads fs trackName =
      (⟨fs, 1, 0, none⟩, .error (.typeError "is_authenticated")) := by
    simp [downloadTrack, h]
  exact ⟨h1, by rw [h1]; exact h⟩

/-- C4 witness: a concrete new-track download aborts with `TypeError`, zero byte
writes, and the destination path still empty. -/
theorem downloadTrack_destination_never_written_witness :
    downloadTrack 5 [] "01 - Song.flac" =
      (⟨[], 1, 0, none⟩, .error (.typeError "is_authenticated"))
    ∧ fsLookup (downloadTrack 5 [] "01 - Song.flac").1.fs "01 - Song.flac" = none := by
  exact downloadTrack_destination_never_written 5 [] "01 - Song.flac" rfl

end Tidalidarr

